import Mathlib

/-!
Verification of the Budget Tracker web application against its specification.

The development shallowly embeds the JavaScript/SQL sources:

* `changeMonth` — month navigation from `Dashboard.jsx` / the Budgets page,
  including the character-level `split('-')` / `Number(...)` /
  `padStart(2, '0')` behaviour of the original code;
* `getCategoryInfo`, `CATEGORIES` — from `lib/constants.js`;
* `getBudgetStatus` — from the Budgets page;
* `handleSubmitExpense` / `handleSubmitBudget` — the form submit handlers of
  `Expenses.jsx` and the Budgets page;
* `totalAmount` — from `Expenses.jsx`;
* `budgetPercentage` / `percentUsedDisplay` — the guarded percentage
  computations of `Dashboard.jsx` and the Budgets page;
* `insertBudget` / `updateBudget` / `deleteBudget` — the budgets table under
  the `UNIQUE(user_id, category, month)` constraint of `schema.sql`;
* `rlsSelect` / `rlsInsert` / `rlsUpdate` / `rlsDelete` — the row-level
  security policies of `schema.sql`;
* `requestResult` — `ApiClient.request` from the API client module.

JavaScript numbers are modelled by `ℚ` (the arithmetic in scope is exact on
the decimal values involved); `NaN` is modelled by `Option.none` where it can
arise.  Backend pieces that are not part of the repository sources (the REST
service) are modelled from the specification text and are marked as such in
their doc comments.
-/

/-! ## Month tokens and `changeMonth` (Dashboard.jsx lines 65-79, Budgets page lines 59-73) -/

/-- The decimal digit characters, as produced by JavaScript number-to-string
conversion. -/
def digitChar (d : Nat) : Char :=
  match d with
  | 0 => '0'
  | 1 => '1'
  | 2 => '2'
  | 3 => '3'
  | 4 => '4'
  | 5 => '5'
  | 6 => '6'
  | 7 => '7'
  | 8 => '8'
  | 9 => '9'
  | _ => '?'

/-- Inverse of `digitChar` on digit characters. -/
def charDigit (c : Char) : Nat :=
  c.toNat - 48

/-- Whether a character is a decimal digit. -/
def isDigitChar (c : Char) : Bool :=
  48 ≤ c.toNat && c.toNat ≤ 57

/-- Fuel-based decimal rendering of a positive natural number, most
significant digit first.  The fuel argument only serves structural
termination; any fuel above the number itself is enough. -/
def natToCharsAux : Nat → Nat → List Char
  | 0, _ => []
  | _ + 1, 0 => []
  | fuel + 1, n + 1 => natToCharsAux fuel ((n + 1) / 10) ++ [digitChar ((n + 1) % 10)]

/-- Decimal rendering of a natural number, as JavaScript `String(n)` produces
it for integral values. -/
def natToChars (n : Nat) : List Char :=
  if n = 0 then ['0'] else natToCharsAux (n + 1) n

/-- Decimal rendering of an integer, as JavaScript `String(n)` produces it. -/
def intToChars (i : Int) : List Char :=
  if i < 0 then '-' :: natToChars i.natAbs else natToChars i.toNat

/-- Left fold computing the value of a decimal digit string, with an explicit
accumulator. -/
def charsValFrom (acc : Nat) (cs : List Char) : Nat :=
  cs.foldl (fun a c => 10 * a + charDigit c) acc

/-- Value of a decimal digit string. -/
def charsVal (cs : List Char) : Nat :=
  charsValFrom 0 cs

/-- JavaScript `Number(s)` restricted to non-empty all-digit strings; every
other input is sent to `none`, standing for `NaN` (which the month tokens in
scope never produce). -/
def parseNatChars (cs : List Char) : Option Nat :=
  if cs.isEmpty then none
  else if cs.all isDigitChar then some (charsVal cs) else none

/-- Prepends a character to the first chunk of a split result. -/
def consHead (c : Char) : List (List Char) → List (List Char)
  | [] => [[c]]
  | h :: t => (c :: h) :: t

/-- JavaScript `s.split('-')` at character level. -/
def splitDash : List Char → List (List Char)
  | [] => [[]]
  | c :: cs => if c = '-' then [] :: splitDash cs else consHead c (splitDash cs)

/-- JavaScript `s.padStart(2, '0')`. -/
def padStart2 (cs : List Char) : List Char :=
  if cs.length < 2 then List.replicate (2 - cs.length) '0' ++ cs else cs

/-- The arithmetic core of `changeMonth` (Dashboard.jsx lines 66-76): add the
delta to the month and roll the year when the result leaves 1..12. -/
def changeMonthNums (year mon delta : Int) : Int × Int :=
  let newMonth := mon + delta
  if newMonth > 12 then (year + 1, 1)
  else if newMonth < 1 then (year - 1, 12)
  else (year, newMonth)

/-- Renders the new month token exactly as the template literal on
Dashboard.jsx line 78 does: unpadded year, dash, month padded to two
characters. -/
def renderMonthToken (year mon : Int) : String :=
  String.mk (intToChars year ++ '-' :: padStart2 (intToChars mon))

/-- `changeMonth` from Dashboard.jsx lines 65-79 (the Budgets page carries an
identical copy): split the current token on dashes, convert the first two
chunks with `Number`, shift the month, and re-render.  Inputs on which
`Number` would yield `NaN` are sent to `none`; the months in scope never
take that path. -/
def changeMonth (month : String) (delta : Int) : Option String :=
  match splitDash month.toList with
  | y :: m :: _ =>
    match parseNatChars y, parseNatChars m with
    | some yn, some mn =>
      let p := changeMonthNums (yn : Int) (mn : Int) delta
      some (renderMonthToken p.1 p.2)
    | _, _ => none
  | _ => none

/-- A well-formed month token `YYYY-MM`: decimal year, dash, zero-padded
two-digit month. -/
def mkToken (y m : Nat) : String :=
  String.mk (natToChars y ++ '-' :: padStart2 (natToChars m))

/-- Formalises the validity notion stated by the specification for month
tokens: a four-digit year, a dash, and a zero-padded two-digit month whose
value lies between 1 and 12. -/
def isValidMonthToken (s : String) : Bool :=
  match splitDash s.toList with
  | [ys, ms] =>
    ys.length == 4 && ys.all isDigitChar &&
    ms.length == 2 && ms.all isDigitChar &&
    1 ≤ charsVal ms && charsVal ms ≤ 12
  | _ => false

/-! ## Categories (lib/constants.js lines 5-18) -/

/-- One entry of the fixed category set (constants.js lines 5-14). -/
structure Category where
  value : String
  label : String
  icon : String
  color : String
deriving DecidableEq

/-- The eight fixed categories of constants.js. -/
def CATEGORIES : List Category :=
  [⟨"Food", "Food", "🍔", "#ef4444"⟩,
   ⟨"Transport", "Transport", "🚗", "#f59e0b"⟩,
   ⟨"Entertainment", "Entertainment", "🎬", "#8b5cf6"⟩,
   ⟨"Bills", "Bills", "📄", "#3b82f6"⟩,
   ⟨"Shopping", "Shopping", "🛍️", "#ec4899"⟩,
   ⟨"Health", "Health", "💊", "#10b981"⟩,
   ⟨"Education", "Education", "📚", "#06b6d4"⟩,
   ⟨"Other", "Other", "📦", "#6b7280"⟩]

/-- `getCategoryInfo` from constants.js lines 16-18:
`CATEGORIES.find(c => c.value === category) || CATEGORIES[CATEGORIES.length - 1]`.
The `getLastD` default is never used, the list being non-empty. -/
def getCategoryInfo (category : String) : Category :=
  (CATEGORIES.find? (fun c => c.value == category)).getD
    (CATEGORIES.getLastD (Category.mk "" "" "" ""))

/-! ## Budget status and alerts (Budgets page lines 145-149, spec §4.2) -/

/-- Status classification values of `getBudgetStatus`. -/
inductive BudgetStatus where
  | exceeded : BudgetStatus
  | warning : BudgetStatus
  | ok : BudgetStatus
deriving DecidableEq

/-- A budget as the Budgets page receives it from the API: the percentage is
a field of the payload, computed server-side. -/
structure BudgetView where
  category : String
  spent : ℚ
  amount : ℚ
  percentage_used : ℚ
deriving DecidableEq

/-- `getBudgetStatus` from the Budgets page lines 145-149. -/
def getBudgetStatus (budget : BudgetView) : BudgetStatus :=
  if budget.percentage_used ≥ 100 then BudgetStatus.exceeded
  else if budget.percentage_used ≥ 80 then BudgetStatus.warning
  else BudgetStatus.ok

/-- Modelled from the spec: the backend dashboard service (not among the
repository sources) computes `percentage_used = spent / amount × 100` for
each budget (spec §4.2). -/
def mkBudgetView (category : String) (spent amount : ℚ) : BudgetView :=
  BudgetView.mk category spent amount (spent / amount * 100)

/-- Modelled from the spec: the backend alerts endpoint (not among the
repository sources) emits one alert record per budget whose consumption
reaches a threshold, and no record for budgets below 80% (spec §4.2); the
classification itself is the one of `getBudgetStatus`. -/
def computeAlerts (budgets : List BudgetView) : List (String × BudgetStatus) :=
  budgets.filterMap (fun b =>
    match getBudgetStatus b with
    | BudgetStatus.ok => none
    | st => some (b.category, st))

/-! ## Form submission (Expenses.jsx lines 89-121, Budgets page lines 100-131) -/

/-- The state of the amount text field at submit time: empty string, a string
parsing to a number, or a non-empty string on which `parseFloat` yields
`NaN`. -/
inductive FormAmount where
  | empty : FormAmount
  | num : ℚ → FormAmount
  | nan : FormAmount
deriving DecidableEq

/-- JavaScript truthiness of the amount field (`!formData.amount` is true
exactly for the empty string). -/
def amountTruthy : FormAmount → Bool
  | FormAmount.empty => false
  | FormAmount.num _ => true
  | FormAmount.nan => true

/-- `parseFloat(formData.amount)`, with `none` standing for `NaN`. -/
def parseFloatAmount : FormAmount → Option ℚ
  | FormAmount.empty => none
  | FormAmount.num q => some q
  | FormAmount.nan => none

/-- JavaScript `x <= 0` on a possibly-`NaN` number: every comparison with
`NaN` is false. -/
def jsLeZero : Option ℚ → Bool
  | none => false
  | some q => decide (q ≤ 0)

/-- The guard on Expenses.jsx line 92 and the Budgets page line 103:
`!formData.amount || parseFloat(formData.amount) <= 0`. -/
def amountInvalid (a : FormAmount) : Bool :=
  !amountTruthy a || jsLeZero (parseFloatAmount a)

/-- The persistence calls the two submit handlers can issue. -/
inductive ApiRequest where
  | createExpense : Option ℚ → String → Option String → String → ApiRequest
  | updateExpense : Nat → Option ℚ → String → Option String → String → ApiRequest
  | createBudget : String → Option ℚ → String → ApiRequest
  | updateBudget : Nat → Option ℚ → ApiRequest
deriving DecidableEq

/-- Outcome of a submit handler: whether the validation toast fired, and the
list of persistence calls issued. -/
structure SubmitResult where
  validationToast : Bool
  calls : List ApiRequest
deriving DecidableEq

/-- `handleSubmit` from Expenses.jsx lines 89-121: reject an empty or
non-positive amount before any API call, otherwise issue exactly one create
or update request built from the form data (`description || null` sends
`null` for the empty description). -/
def handleSubmitExpense (editing : Option Nat) (amount : FormAmount)
    (category description date : String) : SubmitResult :=
  if amountInvalid amount then SubmitResult.mk true []
  else
    match editing with
    | some i =>
      SubmitResult.mk false
        [ApiRequest.updateExpense i (parseFloatAmount amount) category
          (if description = "" then none else some description) date]
    | none =>
      SubmitResult.mk false
        [ApiRequest.createExpense (parseFloatAmount amount) category
          (if description = "" then none else some description) date]

/-- `handleSubmit` from the Budgets page lines 100-131: same validation,
then either a PATCH of the amount or a create for the displayed month. -/
def handleSubmitBudget (editing : Option Nat) (amount : FormAmount)
    (category month : String) : SubmitResult :=
  if amountInvalid amount then SubmitResult.mk true []
  else
    match editing with
    | some i => SubmitResult.mk false [ApiRequest.updateBudget i (parseFloatAmount amount)]
    | none => SubmitResult.mk false [ApiRequest.createBudget category (parseFloatAmount amount) month]

/-! ## Expense totals (Expenses.jsx line 135, spec §4.1/§6) -/

/-- An expense row as the Expenses page consumes it; the month field is the
`YYYY-MM` component of its date. -/
structure ExpenseRec where
  user : Nat
  month : String
  category : String
  amount : ℚ
deriving DecidableEq

/-- Modelled from the spec: the backend expense-list endpoint (not among the
repository sources) returns exactly the caller's expenses whose date falls in
the requested month (spec §4.3 and §6). -/
def filterExpenses (user : Nat) (month : String) (es : List ExpenseRec) : List ExpenseRec :=
  es.filter (fun e => e.user == user && e.month == month)

/-- `totalAmount` from Expenses.jsx line 135:
`expenses.reduce((sum, e) => sum + e.amount, 0)`. -/
def totalAmount (expenses : List ExpenseRec) : ℚ :=
  expenses.foldl (fun sum e => sum + e.amount) 0

/-! ## Guarded percentage displays (Dashboard.jsx lines 89-91, Budgets page line 225) -/

/-- `budgetPercentage` from Dashboard.jsx lines 89-91: the division is only
taken when the total budget is positive, else 0 is rendered. -/
def budgetPercentage (totalBudget totalSpent : ℚ) : ℚ :=
  if totalBudget > 0 then totalSpent / totalBudget * 100 else 0

/-- The rendered percentage of the Budgets page line 225:
`totalBudget > 0 ? ((totalSpent / totalBudget) * 100).toFixed(0) : 0`
(before rounding). -/
def percentUsedDisplay (totalBudget totalSpent : ℚ) : ℚ :=
  if totalBudget > 0 then totalSpent / totalBudget * 100 else 0

/-! ## Budgets table and its uniqueness constraint (schema.sql lines 19-27) -/

/-- A row of the budgets table. -/
structure BudgetRow where
  id : Nat
  user_id : Nat
  category : String
  amount : ℚ
  month : String
deriving DecidableEq

/-- The key of the `UNIQUE(user_id, category, month)` constraint. -/
def budgetKey (b : BudgetRow) : Nat × String × String :=
  (b.user_id, b.category, b.month)

/-- The table invariant: no two rows share a `(user, category, month)` key. -/
def UniqueBudgetKeys (s : List BudgetRow) : Prop :=
  s.Pairwise (fun a b => budgetKey a ≠ budgetKey b)

/-- INSERT into budgets under schema.sql lines 19-27: the statement fails on
a duplicate `(user_id, category, month)` key or a non-positive amount
(`CHECK (amount > 0)`), and appends the row otherwise. -/
def insertBudget (s : List BudgetRow) (b : BudgetRow) : Except Unit (List BudgetRow) :=
  if s.any (fun r => decide (budgetKey r = budgetKey b)) then Except.error ()
  else if b.amount ≤ 0 then Except.error ()
  else Except.ok (s ++ [b])

/-- The budgets partial update (PATCH of the amount only, Budgets page lines
110-113): rows with the given id get the new amount, every other row is
untouched. -/
def updateBudget (s : List BudgetRow) (target : Nat) (amount : ℚ) : List BudgetRow :=
  s.map (fun r =>
    if r.id = target then BudgetRow.mk r.id r.user_id r.category amount r.month else r)

/-- DELETE of a budget row by id. -/
def deleteBudget (s : List BudgetRow) (target : Nat) : List BudgetRow :=
  s.filter (fun r => !(r.id == target))

/-! ## Row-level security (schema.sql lines 39-67) -/

/-- A row of a user-owned table (expenses or budgets); `payload` stands for
the remaining columns. -/
structure DataRow where
  id : Nat
  user_id : Nat
  payload : String
deriving DecidableEq

/-- SELECT under the policy `USING (auth.uid() = user_id)`: whatever filter
the request carries, the statement only sees the caller's rows. -/
def rlsSelect (caller : Nat) (cond : DataRow → Bool) (s : List DataRow) : List DataRow :=
  s.filter (fun r => (r.user_id == caller) && cond r)

/-- INSERT under the policy `WITH CHECK (auth.uid() = user_id)`: the
statement fails unless every inserted row is owned by the caller. -/
def rlsInsert (caller : Nat) (rows : List DataRow) (s : List DataRow) :
    Except Unit (List DataRow) :=
  if rows.all (fun r => r.user_id == caller) then Except.ok (s ++ rows) else Except.error ()

/-- UPDATE under `USING (auth.uid() = user_id)` (whose check clause defaults
to the same condition in PostgreSQL): only the caller's rows are visible to
the statement, and the whole statement fails if an update would hand a row to
another user. -/
def rlsUpdate (caller : Nat) (cond : DataRow → Bool) (f : DataRow → DataRow)
    (s : List DataRow) : Except Unit (List DataRow) :=
  if s.any (fun r => (r.user_id == caller) && cond r && !((f r).user_id == caller)) then
    Except.error ()
  else
    Except.ok (s.map (fun r => if (r.user_id == caller) && cond r then f r else r))

/-- DELETE under `USING (auth.uid() = user_id)`: only the caller's rows can
match. -/
def rlsDelete (caller : Nat) (cond : DataRow → Bool) (s : List DataRow) : List DataRow :=
  s.filter (fun r => !((r.user_id == caller) && cond r))

/-! ## The API client (part of the frontend sources, `ApiClient.request`) -/

/-- A parsed JSON value (arrays are irrelevant to the request logic and
omitted). -/
inductive Json where
  | null : Json
  | bool : Bool → Json
  | num : Int → Json
  | str : String → Json
  | obj : List (String × Json) → Json

/-- JavaScript property lookup on a parsed JSON value; `none` stands for
`undefined`. -/
def jsLookup (key : String) (j : Json) : Option Json :=
  match j with
  | Json.obj fields => (fields.find? (fun f => f.1 == key)).map (fun f => f.2)
  | _ => none

/-- JavaScript truthiness of a JSON value. -/
def jsTruthy : Json → Bool
  | Json.null => false
  | Json.bool b => b
  | Json.num n => !(n == 0)
  | Json.str s => !(s == "")
  | Json.obj _ => true

/-- JavaScript string conversion of a JSON value, as `new Error(x)` applies
it to its argument. -/
def jsToString : Json → String
  | Json.null => "null"
  | Json.bool b => if b then "true" else "false"
  | Json.num n => toString n
  | Json.str s => s
  | Json.obj _ => "[object Object]"

/-- An HTTP response as `fetch` delivers it: a status code and a body, with
`none` when the body is not valid JSON. -/
structure HttpResponse where
  status : Nat
  body : Option Json

/-- The four ways `ApiClient.request` can end. -/
inductive RequestOutcome where
  | threw : String → RequestOutcome
  | parseFailed : RequestOutcome
  | resolvedNull : RequestOutcome
  | resolved : Json → RequestOutcome

/-- `response.ok`: status in the 200-299 range. -/
def responseOk (status : Nat) : Bool :=
  200 ≤ status && status ≤ 299

/-- `ApiClient.request` (lines 18-50 of the API client): on a non-ok status,
parse the body (falling back to `{ detail: 'Request failed' }` when parsing
fails) and throw `new Error(error.detail || 'HTTP <status>')`; on 204 resolve
to `null` without touching the body; otherwise resolve to the parsed JSON
body (`parseFailed` models the rethrown `response.json()` rejection). -/
def requestResult (resp : HttpResponse) : RequestOutcome :=
  if !(responseOk resp.status) then
    let errBody :=
      match resp.body with
      | some j => j
      | none => Json.obj [("detail", Json.str ("Request failed"))]
    RequestOutcome.threw
      (match jsLookup ("detail") errBody with
        | some v => if jsTruthy v then jsToString v else "HTTP " ++ toString resp.status
        | none => "HTTP " ++ toString resp.status)
  else if resp.status == 204 then RequestOutcome.resolvedNull
  else
    match resp.body with
    | some j => RequestOutcome.resolved j
    | none => RequestOutcome.parseFailed

/-! ## Lemmas about decimal rendering and parsing -/

theorem charDigit_digitChar (d : Nat) (h : d < 10) : charDigit (digitChar d) = d := by
  interval_cases d <;> rfl

theorem isDigitChar_digitChar (d : Nat) (h : d < 10) : isDigitChar (digitChar d) = true := by
  interval_cases d <;> rfl

theorem natToCharsAux_all_digits :
    ∀ (fuel n : Nat), ∀ c ∈ natToCharsAux fuel n, isDigitChar c = true := by
  intro fuel
  induction fuel with
  | zero => intro n c hc; simp [natToCharsAux] at hc
  | succ f ih =>
    intro n c hc
    cases n with
    | zero => simp [natToCharsAux] at hc
    | succ k =>
      rw [natToCharsAux] at hc
      rcases List.mem_append.mp hc with h1 | h2
      · exact ih _ c h1
      · have hc2 : c = digitChar ((k + 1) % 10) := by simpa using h2
        subst hc2
        exact isDigitChar_digitChar _ (Nat.mod_lt _ (by norm_num))

theorem charsValFrom_append (acc : Nat) (a b : List Char) :
    charsValFrom acc (a ++ b) = charsValFrom (charsValFrom acc a) b := by
  simp [charsValFrom, List.foldl_append]

theorem charsValFrom_aux :
    ∀ (fuel n : Nat), n < fuel → ∀ acc,
      charsValFrom acc (natToCharsAux fuel n)
        = acc * 10 ^ (natToCharsAux fuel n).length + n := by
  intro fuel
  induction fuel with
  | zero => intro n h; omega
  | succ f ih =>
    intro n h acc
    cases n with
    | zero => simp [natToCharsAux, charsValFrom]
    | succ k =>
      have hdiv : (k + 1) / 10 < f :=
        lt_of_lt_of_le (Nat.div_lt_self (Nat.succ_pos k) (by norm_num)) (Nat.lt_succ_iff.mp h)
      have hr : charDigit (digitChar ((k + 1) % 10)) = (k + 1) % 10 :=
        charDigit_digitChar _ (Nat.mod_lt _ (by norm_num))
      have hkey : 10 * ((k + 1) / 10) + (k + 1) % 10 = k + 1 := Nat.div_add_mod (k + 1) 10
      rw [natToCharsAux, charsValFrom_append, ih _ hdiv]
      simp only [charsValFrom, List.foldl_cons, List.foldl_nil, List.length_append,
        List.length_cons, List.length_nil, hr]
      calc 10 * (acc * 10 ^ (natToCharsAux f ((k + 1) / 10)).length + (k + 1) / 10)
            + (k + 1) % 10
          = acc * (10 ^ (natToCharsAux f ((k + 1) / 10)).length * 10)
            + (10 * ((k + 1) / 10) + (k + 1) % 10) := by ring
        _ = acc * 10 ^ ((natToCharsAux f ((k + 1) / 10)).length + (0 + 1)) + (k + 1) := by
            rw [hkey, pow_succ]

theorem charsVal_natToChars (n : Nat) : charsVal (natToChars n) = n := by
  unfold natToChars charsVal
  by_cases h : n = 0
  · subst h; rfl
  · rw [if_neg h, charsValFrom_aux (n + 1) n (Nat.lt_succ_self n) 0]
    simp

theorem natToChars_all_digits (n : Nat) : (natToChars n).all isDigitChar = true := by
  unfold natToChars
  by_cases h : n = 0
  · subst h; rfl
  · rw [if_neg h, List.all_eq_true]
    intro c hc
    exact natToCharsAux_all_digits _ _ c hc

theorem natToChars_ne_nil (n : Nat) : natToChars n ≠ [] := by
  unfold natToChars
  by_cases h : n = 0
  · subst h; simp
  · rw [if_neg h]
    cases n with
    | zero => exact absurd rfl h
    | succ k => rw [natToCharsAux]; simp

theorem no_dash_of_all_digits (cs : List Char) (h : cs.all isDigitChar = true) : '-' ∉ cs := by
  intro hm
  rw [List.all_eq_true] at h
  exact absurd (h '-' hm) (by decide)

theorem dash_not_mem_natToChars (n : Nat) : '-' ∉ natToChars n :=
  no_dash_of_all_digits _ (natToChars_all_digits n)

theorem padStart2_all_digits (cs : List Char) (h : cs.all isDigitChar = true) :
    (padStart2 cs).all isDigitChar = true := by
  unfold padStart2
  split
  · rw [List.all_append, h]
    simp only [Bool.and_true]
    rw [List.all_eq_true]
    intro c hc
    have : c = '0' := List.eq_of_mem_replicate hc
    subst this; rfl
  · exact h

theorem charsValFrom_zeros : ∀ k : Nat, charsValFrom 0 (List.replicate k '0') = 0 := by
  intro k
  induction k with
  | zero => rfl
  | succ j ih =>
    rw [List.replicate_succ]
    show charsValFrom (10 * 0 + charDigit '0') (List.replicate j '0') = 0
    have : 10 * 0 + charDigit '0' = 0 := rfl
    rw [this, ih]

theorem charsVal_padStart2 (cs : List Char) : charsVal (padStart2 cs) = charsVal cs := by
  unfold padStart2 charsVal
  split
  · rw [charsValFrom_append, charsValFrom_zeros]
  · rfl

theorem padStart2_ne_nil (cs : List Char) (h : cs ≠ []) : padStart2 cs ≠ [] := by
  unfold padStart2
  split
  · simp [h]
  · exact h

theorem parseNatChars_of_digits (cs : List Char) (h1 : cs ≠ [])
    (h2 : cs.all isDigitChar = true) : parseNatChars cs = some (charsVal cs) := by
  cases cs with
  | nil => exact absurd rfl h1
  | cons c t => simp [parseNatChars, h2]

theorem splitDash_no_dash (cs : List Char) (h : '-' ∉ cs) : splitDash cs = [cs] := by
  induction cs with
  | nil => rfl
  | cons c t ih =>
    have hc : c ≠ '-' := fun e => h (e ▸ List.mem_cons_self c t)
    have ht : '-' ∉ t := fun m => h (List.mem_cons_of_mem c m)
    rw [splitDash, if_neg hc, ih ht]
    rfl

theorem splitDash_append (a b : List Char) (h : '-' ∉ a) :
    splitDash (a ++ '-' :: b) = a :: splitDash b := by
  induction a with
  | nil => simp [splitDash]
  | cons c t ih =>
    have hc : c ≠ '-' := fun e => h (e ▸ List.mem_cons_self c t)
    have ht : '-' ∉ t := fun m => h (List.mem_cons_of_mem c m)
    rw [List.cons_append, splitDash, if_neg hc, ih ht]
    rfl

theorem natToCharsAux_length :
    ∀ (fuel n k : Nat), n < fuel → 10 ^ k ≤ n → n < 10 ^ (k + 1) →
      (natToCharsAux fuel n).length = k + 1 := by
  intro fuel
  induction fuel with
  | zero => intro n k h; omega
  | succ f ih =>
    intro n k h hlo hhi
    cases n with
    | zero =>
      have : 0 < 10 ^ k := pow_pos (by norm_num) k
      omega
    | succ m =>
      rw [natToCharsAux, List.length_append, List.length_cons, List.length_nil]
      cases k with
      | zero =>
        have h10 : (m + 1) / 10 = 0 := Nat.div_eq_of_lt (by simpa using hhi)
        rw [h10]
        cases f with
        | zero => omega
        | succ f2 => rw [natToCharsAux]; rfl
      | succ k2 =>
        have hdlo : 10 ^ k2 ≤ (m + 1) / 10 := by
          rw [Nat.le_div_iff_mul_le (by norm_num)]
          rw [pow_succ] at hlo
          omega
        have hdhi : (m + 1) / 10 < 10 ^ (k2 + 1) := by
          apply Nat.div_lt_of_lt_mul
          rw [pow_succ] at hhi
          omega
        have hflt : (m + 1) / 10 < f :=
          lt_of_lt_of_le (Nat.div_lt_self (Nat.succ_pos m) (by norm_num)) (Nat.lt_succ_iff.mp h)
        rw [ih _ _ hflt hdlo hdhi]

theorem natToChars_length_of_bounds (n k : Nat) (hlo : 10 ^ k ≤ n) (hhi : n < 10 ^ (k + 1)) :
    (natToChars n).length = k + 1 := by
  have hn : n ≠ 0 := by
    have : 0 < 10 ^ k := pow_pos (by norm_num) k
    omega
  unfold natToChars
  rw [if_neg hn]
  exact natToCharsAux_length (n + 1) n k (Nat.lt_succ_self n) hlo hhi

theorem padStart2_length (cs : List Char) (h : cs.length ≤ 2) : (padStart2 cs).length = 2 := by
  unfold padStart2
  split
  · rw [List.length_append, List.length_replicate]
    omega
  · omega

/-! ## Computation lemmas for `changeMonth` on well-formed tokens -/

theorem toList_mkToken (y m : Nat) :
    (mkToken y m).toList = natToChars y ++ '-' :: padStart2 (natToChars m) := rfl

theorem dash_not_mem_padStart2 (m : Nat) : '-' ∉ padStart2 (natToChars m) :=
  no_dash_of_all_digits _ (padStart2_all_digits _ (natToChars_all_digits m))

theorem splitDash_mkToken (y m : Nat) :
    splitDash (mkToken y m).toList = [natToChars y, padStart2 (natToChars m)] := by
  rw [toList_mkToken, splitDash_append _ _ (dash_not_mem_natToChars y),
    splitDash_no_dash _ (dash_not_mem_padStart2 m)]

theorem parse_year_chunk (y : Nat) : parseNatChars (natToChars y) = some y := by
  rw [parseNatChars_of_digits _ (natToChars_ne_nil y) (natToChars_all_digits y),
    charsVal_natToChars]

theorem parse_month_chunk (m : Nat) : parseNatChars (padStart2 (natToChars m)) = some m := by
  rw [parseNatChars_of_digits _ (padStart2_ne_nil _ (natToChars_ne_nil m))
    (padStart2_all_digits _ (natToChars_all_digits m)), charsVal_padStart2, charsVal_natToChars]

theorem intToChars_natCast (n : Nat) : intToChars (n : Int) = natToChars n := by
  simp [intToChars]

theorem renderMonthToken_natCast (a b : Nat) :
    renderMonthToken (a : Int) (b : Int) = mkToken a b := by
  unfold renderMonthToken mkToken
  rw [intToChars_natCast, intToChars_natCast]

theorem changeMonth_mkToken (y m : Nat) (delta : Int) :
    changeMonth (mkToken y m) delta =
      some (renderMonthToken (changeMonthNums (y : Int) (m : Int) delta).1
        (changeMonthNums (y : Int) (m : Int) delta).2) := by
  unfold changeMonth
  rw [splitDash_mkToken]
  simp [parse_year_chunk, parse_month_chunk]

theorem changeMonthNums_plus_roll (y : Int) :
    changeMonthNums y 12 1 = (y + 1, 1) := by
  simp only [changeMonthNums]
  split_ifs <;> simp [Prod.ext_iff] <;> omega

theorem changeMonthNums_plus_keep (y m : Int) (h1 : 0 ≤ m) (h2 : m < 12) :
    changeMonthNums y m 1 = (y, m + 1) := by
  simp only [changeMonthNums]
  split_ifs <;> simp [Prod.ext_iff] <;> omega

theorem changeMonthNums_minus_roll (y : Int) :
    changeMonthNums y 1 (-1) = (y - 1, 12) := by
  simp only [changeMonthNums]
  split_ifs <;> simp [Prod.ext_iff] <;> omega

theorem changeMonthNums_minus_keep (y m : Int) (h1 : 1 < m) (h2 : m ≤ 12) :
    changeMonthNums y m (-1) = (y, m - 1) := by
  simp only [changeMonthNums]
  split_ifs <;> simp [Prod.ext_iff] <;> omega

theorem changeMonth_plus (y m : Nat) (hm2 : m ≤ 12) :
    changeMonth (mkToken y m) 1
      = some (if m = 12 then mkToken (y + 1) 1 else mkToken y (m + 1)) := by
  rw [changeMonth_mkToken]
  by_cases h : m = 12
  · subst h
    rw [if_pos rfl]
    have hc : ((12 : Nat) : Int) = 12 := by norm_cast
    rw [hc, changeMonthNums_plus_roll]
    have h1 : ((y : Int) + 1) = ((y + 1 : Nat) : Int) := by push_cast; ring
    have h2 : (1 : Int) = ((1 : Nat) : Int) := by norm_cast
    rw [h1, h2, renderMonthToken_natCast]
  · rw [if_neg h]
    have hlt : (m : Int) < 12 := by
      have : m < 12 := lt_of_le_of_ne hm2 h
      omega
    rw [changeMonthNums_plus_keep _ _ (by omega) hlt]
    have h1 : ((m : Int) + 1) = ((m + 1 : Nat) : Int) := by omega
    rw [h1, renderMonthToken_natCast]

theorem changeMonth_minus (y m : Nat) (hy : 1 ≤ y) (hm1 : 1 ≤ m) (hm2 : m ≤ 12) :
    changeMonth (mkToken y m) (-1)
      = some (if m = 1 then mkToken (y - 1) 12 else mkToken y (m - 1)) := by
  rw [changeMonth_mkToken]
  by_cases h : m = 1
  · subst h
    rw [if_pos rfl]
    have hc : ((1 : Nat) : Int) = 1 := by norm_cast
    rw [hc, changeMonthNums_minus_roll]
    have h1 : ((y : Int) - 1) = ((y - 1 : Nat) : Int) := by omega
    have h2 : (12 : Int) = ((12 : Nat) : Int) := by norm_cast
    rw [h1, h2, renderMonthToken_natCast]
  · rw [if_neg h]
    have h1i : (1 : Int) < (m : Int) := by omega
    have h2i : (m : Int) ≤ 12 := by omega
    rw [changeMonthNums_minus_keep _ _ h1i h2i]
    have h1 : ((m : Int) - 1) = ((m - 1 : Nat) : Int) := by omega
    rw [h1, renderMonthToken_natCast]

theorem natToChars_month_length (m : Nat) (h3 : 1 ≤ m) (h4 : m ≤ 12) :
    (natToChars m).length ≤ 2 := by
  by_cases h9 : m ≤ 9
  · rw [natToChars_length_of_bounds m 0 (by norm_num; omega) (by norm_num; omega)]
    omega
  · rw [natToChars_length_of_bounds m 1 (by norm_num; omega) (by norm_num; omega)]

theorem isValidMonthToken_mkToken (y m : Nat) (h1 : 1000 ≤ y) (h2 : y ≤ 9999)
    (h3 : 1 ≤ m) (h4 : m ≤ 12) : isValidMonthToken (mkToken y m) = true := by
  unfold isValidMonthToken
  rw [splitDash_mkToken]
  have hylen : (natToChars y).length = 4 :=
    natToChars_length_of_bounds y 3 (by norm_num; omega) (by norm_num; omega)
  have hmlen : (padStart2 (natToChars m)).length = 2 :=
    padStart2_length _ (natToChars_month_length m h3 h4)
  simp [hylen, hmlen, natToChars_all_digits, padStart2_all_digits,
    charsVal_padStart2, charsVal_natToChars, h3, h4]

/-- Claim C1: for every month token with month component between 01 and 12,
`changeMonth` with delta +1 maps December of year Y to January of year Y+1,
with delta -1 maps January of year Y to December of year Y-1, and in every
other case changes only the month component by the delta while the year is
unchanged; in particular "2024-12" decremented yields "2024-11" and
incremented yields "2025-01". -/
theorem changeMonth_navigation_correct (y m : Nat) (hy : 1 ≤ y)
    (hm1 : 1 ≤ m) (hm2 : m ≤ 12) :
    (m = 12 → changeMonth (mkToken y m) 1 = some (mkToken (y + 1) 1)) ∧
    (m < 12 → changeMonth (mkToken y m) 1 = some (mkToken y (m + 1))) ∧
    (m = 1 → changeMonth (mkToken y m) (-1) = some (mkToken (y - 1) 12)) ∧
    (1 < m → changeMonth (mkToken y m) (-1) = some (mkToken y (m - 1))) ∧
    changeMonth ("2024-12") (-1) = some ("2024-11") ∧
    changeMonth ("2024-12") 1 = some ("2025-01") := by
  refine ⟨?_, ?_, ?_, ?_, by decide, by decide⟩
  · intro h
    subst h
    rw [changeMonth_plus y 12 le_rfl]
    simp
  · intro h
    rw [changeMonth_plus y m hm2, if_neg (by omega)]
  · intro h
    subst h
    rw [changeMonth_minus y 1 hy le_rfl (by norm_num)]
    simp
  · intro h
    rw [changeMonth_minus y m hy hm1 hm2, if_neg (by omega)]

/-- Claim C1 witness: the theorem applied at December 2024 and at May 2024. -/
theorem changeMonth_navigation_correct_witness :
    changeMonth (mkToken 2024 12) 1 = some (mkToken 2025 1) ∧
    changeMonth (mkToken 2024 5) (-1) = some (mkToken 2024 4) := by
  constructor
  · exact (changeMonth_navigation_correct 2024 12 (by decide) (by decide) (by decide)).1 rfl
  · exact (changeMonth_navigation_correct 2024 5 (by decide) (by decide) (by decide)).2.2.2.1
      (by decide)

/-- Claim C9 counterexample: the claim as stated fails on the code: the valid
token "9999-12" navigates under +1 to "10000-01", whose year has five digits,
so the result is not a valid zero-padded `YYYY-MM` token in the sense the
claim requires (four-digit year). -/
theorem month_token_roundtrip_counterexample :
    isValidMonthToken ("9999-12") = true ∧
    changeMonth ("9999-12") 1 = some ("10000-01") ∧
    isValidMonthToken ("10000-01") = false :=
  ⟨by decide, by decide, by decide⟩

/-- Claim C9 (amended): for every valid month token, +1 then -1 (and -1 then
+1) returns the original token; each single application yields a token with a
decimal year and zero-padded month between 01 and 12, and that token is again
a valid four-digit-year token except when the step crosses below January of
year 1000 or above December of year 9999. -/
theorem month_token_roundtrip (y m : Nat) (h1 : 1000 ≤ y) (h2 : y ≤ 9999)
    (h3 : 1 ≤ m) (h4 : m ≤ 12) :
    ((changeMonth (mkToken y m) 1).bind (fun t => changeMonth t (-1))
      = some (mkToken y m)) ∧
    ((changeMonth (mkToken y m) (-1)).bind (fun t => changeMonth t 1)
      = some (mkToken y m)) ∧
    (¬(y = 9999 ∧ m = 12) →
      ∃ t, changeMonth (mkToken y m) 1 = some t ∧ isValidMonthToken t = true) ∧
    (¬(y = 1000 ∧ m = 1) →
      ∃ t, changeMonth (mkToken y m) (-1) = some t ∧ isValidMonthToken t = true) := by
  refine ⟨?_, ?_, ?_, ?_⟩
  · by_cases h : m = 12
    · subst h
      rw [changeMonth_plus y 12 le_rfl, if_pos rfl]
      show changeMonth (mkToken (y + 1) 1) (-1) = some (mkToken y 12)
      rw [changeMonth_minus (y + 1) 1 (by omega) le_rfl (by norm_num), if_pos rfl]
      have he : y + 1 - 1 = y := by omega
      rw [he]
    · rw [changeMonth_plus y m h4, if_neg h]
      show changeMonth (mkToken y (m + 1)) (-1) = some (mkToken y m)
      rw [changeMonth_minus y (m + 1) (by omega) (by omega) (by omega), if_neg (by omega)]
      have he : m + 1 - 1 = m := by omega
      rw [he]
  · by_cases h : m = 1
    · subst h
      rw [changeMonth_minus y 1 (by omega) le_rfl (by norm_num), if_pos rfl]
      show changeMonth (mkToken (y - 1) 12) 1 = some (mkToken y 1)
      rw [changeMonth_plus (y - 1) 12 le_rfl, if_pos rfl]
      have he : y - 1 + 1 = y := by omega
      rw [he]
    · rw [changeMonth_minus y m (by omega) h3 h4, if_neg h]
      show changeMonth (mkToken y (m - 1)) 1 = some (mkToken y m)
      rw [changeMonth_plus y (m - 1) (by omega), if_neg (by omega)]
      have he : m - 1 + 1 = m := by omega
      rw [he]
  · intro hne
    by_cases h : m = 12
    · subst h
      have hy9 : y ≠ 9999 := fun e => hne ⟨e, rfl⟩
      refine ⟨mkToken (y + 1) 1, ?_, ?_⟩
      · rw [changeMonth_plus y 12 le_rfl]
        simp
      · exact isValidMonthToken_mkToken (y + 1) 1 (by omega) (by omega) le_rfl (by norm_num)
    · refine ⟨mkToken y (m + 1), ?_, ?_⟩
      · rw [changeMonth_plus y m h4, if_neg h]
      · exact isValidMonthToken_mkToken y (m + 1) h1 h2 (by omega) (by omega)
  · intro hne
    by_cases h : m = 1
    · subst h
      have hy1 : y ≠ 1000 := fun e => hne ⟨e, rfl⟩
      refine ⟨mkToken (y - 1) 12, ?_, ?_⟩
      · rw [changeMonth_minus y 1 (by omega) le_rfl (by norm_num)]
        simp
      · exact isValidMonthToken_mkToken (y - 1) 12 (by omega) (by omega) (by norm_num) le_rfl
    · refine ⟨mkToken y (m - 1), ?_, ?_⟩
      · rw [changeMonth_minus y m (by omega) h3 h4, if_neg h]
      · exact isValidMonthToken_mkToken y (m - 1) h1 h2 (by omega) (by omega)

/-- Claim C9 witness: the round trip at December 2024. -/
theorem month_token_roundtrip_witness :
    (changeMonth (mkToken 2024 12) 1).bind (fun t => changeMonth t (-1))
      = some (mkToken 2024 12) :=
  (month_token_roundtrip 2024 12 (by decide) (by decide) (by decide) (by decide)).1

/-- Claim C10: `getCategoryInfo` is total on strings: for a string matching
the value of one of the eight fixed categories that category's record is
returned, and for any other string the last element of `CATEGORIES` — the
"Other" record — is returned instead of an undefined result. -/
theorem getCategoryInfo_total (s : String) :
    (s ∈ CATEGORIES.map (fun c => c.value) →
      getCategoryInfo s ∈ CATEGORIES ∧ (getCategoryInfo s).value = s) ∧
    (s ∉ CATEGORIES.map (fun c => c.value) →
      getCategoryInfo s = CATEGORIES.getLastD (Category.mk "" "" "" "")) ∧
    (CATEGORIES.getLastD (Category.mk "" "" "" "")).value = "Other" := by
  refine ⟨?_, ?_, by decide⟩
  · intro hmem
    rcases hfind : CATEGORIES.find? (fun c => c.value == s) with _ | cat
    · exfalso
      rw [List.find?_eq_none] at hfind
      rcases List.mem_map.mp hmem with ⟨c, hc, hcv⟩
      exact hfind c hc (by simp [hcv])
    · have hp := List.find?_some hfind
      have hm := List.mem_of_find?_eq_some hfind
      have hv : cat.value = s := by simpa using hp
      constructor
      · simpa [getCategoryInfo, hfind] using hm
      · simp [getCategoryInfo, hfind, hv]
  · intro hmem
    rcases hfind : CATEGORIES.find? (fun c => c.value == s) with _ | cat
    · simp [getCategoryInfo, hfind]
    · exfalso
      have hp := List.find?_some hfind
      have hm := List.mem_of_find?_eq_some hfind
      have hv : cat.value = s := by simpa using hp
      exact hmem (hv ▸ List.mem_map_of_mem (fun c => c.value) hm)

/-- Claim C10 witness: a known category value and an unknown string. -/
theorem getCategoryInfo_total_witness :
    (getCategoryInfo ("Transport") ∈ CATEGORIES ∧
      (getCategoryInfo ("Transport")).value = "Transport") ∧
    getCategoryInfo ("Groceries") = CATEGORIES.getLastD (Category.mk "" "" "" "") :=
  ⟨(getCategoryInfo_total ("Transport")).1 (by decide),
   (getCategoryInfo_total ("Groceries")).2.1 (by decide)⟩

/-- Claim C2: a budget whose consumed percentage p satisfies p ≥ 100 is
classified "exceeded", 80 ≤ p < 100 "warning", otherwise "ok" (no alert);
for budgets Food 1000/1200 (about 83%) and Transport 800/500 (160%) the alert
computation yields exactly one warning (Food) and one exceeded (Transport)
and nothing else. -/
theorem budget_status_classification :
    (∀ b : BudgetView, 100 ≤ b.percentage_used →
      getBudgetStatus b = BudgetStatus.exceeded) ∧
    (∀ b : BudgetView, 80 ≤ b.percentage_used → b.percentage_used < 100 →
      getBudgetStatus b = BudgetStatus.warning) ∧
    (∀ b : BudgetView, b.percentage_used < 80 → getBudgetStatus b = BudgetStatus.ok) ∧
    computeAlerts [mkBudgetView ("Food") 1000 1200, mkBudgetView ("Transport") 800 500]
      = [(("Food"), BudgetStatus.warning), (("Transport"), BudgetStatus.exceeded)] := by
  refine ⟨?_, ?_, ?_, ?_⟩
  · intro b h
    unfold getBudgetStatus
    rw [if_pos h]
  · intro b h1 h2
    unfold getBudgetStatus
    rw [if_neg (not_le.mpr h2), if_pos h1]
  · intro b h
    unfold getBudgetStatus
    rw [if_neg (not_le.mpr (lt_of_lt_of_le h (by norm_num))), if_neg (not_le.mpr h)]
  · have hw : getBudgetStatus (mkBudgetView ("Food") 1000 1200) = BudgetStatus.warning := by
      norm_num [mkBudgetView, getBudgetStatus]
    have he : getBudgetStatus (mkBudgetView ("Transport") 800 500) = BudgetStatus.exceeded := by
      norm_num [mkBudgetView, getBudgetStatus]
    rw [computeAlerts, List.filterMap_cons, List.filterMap_cons, List.filterMap_nil]
    rw [hw, he]
    rfl

/-- Claim C2 witness: the classification applied at percentages 160, 83
and 10. -/
theorem budget_status_classification_witness :
    getBudgetStatus (BudgetView.mk ("Transport") 800 500 160) = BudgetStatus.exceeded ∧
    getBudgetStatus (BudgetView.mk ("Food") 1000 1200 83) = BudgetStatus.warning ∧
    getBudgetStatus (BudgetView.mk ("Misc") 10 100 10) = BudgetStatus.ok :=
  ⟨budget_status_classification.1 (BudgetView.mk ("Transport") 800 500 160) (by decide),
   budget_status_classification.2.1 (BudgetView.mk ("Food") 1000 1200 83)
     (by decide) (by decide),
   budget_status_classification.2.2.1 (BudgetView.mk ("Misc") 10 100 10) (by decide)⟩

/-- Claim C3: a submitted expense or budget form whose amount field is empty
or parses to a value ≤ 0 makes the handler report a validation error and
return before issuing any persistence call, so no create or update request is
sent. -/
theorem submit_rejects_invalid_amount
    (editing : Option Nat) (amount : FormAmount)
    (category description date month : String)
    (h : amount = FormAmount.empty ∨ ∃ q : ℚ, amount = FormAmount.num q ∧ q ≤ 0) :
    handleSubmitExpense editing amount category description date = SubmitResult.mk true [] ∧
    (handleSubmitExpense editing amount category description date).calls = [] ∧
    handleSubmitBudget editing amount category month = SubmitResult.mk true [] ∧
    (handleSubmitBudget editing amount category month).calls = [] := by
  have hinv : amountInvalid amount = true := by
    rcases h with h | ⟨q, hq, hq0⟩
    · subst h; rfl
    · subst hq
      simp [amountInvalid, amountTruthy, parseFloatAmount, jsLeZero, hq0]
  refine ⟨?_, ?_, ?_, ?_⟩ <;> simp [handleSubmitExpense, handleSubmitBudget, hinv]

/-- Claim C3 witness: a negative amount on a fresh expense form and an empty
amount on a budget edit form are both rejected with no API call. -/
theorem submit_rejects_invalid_amount_witness :
    handleSubmitExpense none (FormAmount.num (-5)) ("Food") ("") ("2024-01-15")
      = SubmitResult.mk true [] ∧
    handleSubmitBudget (some 7) FormAmount.empty ("Food") ("2024-01")
      = SubmitResult.mk true [] :=
  ⟨(submit_rejects_invalid_amount none (FormAmount.num (-5)) ("Food") ("") ("2024-01-15")
      ("2024-01") (Or.inr ⟨-5, rfl, by decide⟩)).1,
   (submit_rejects_invalid_amount (some 7) FormAmount.empty ("Food") ("") ("2024-01-15")
      ("2024-01") (Or.inl rfl)).2.2.1⟩

/-- Claim C5: for a displayed month whose total budgeted amount is 0 the
rendered percentage-of-budget-used is 0 — the division is guarded by the
positivity tests of Dashboard.jsx and of the Budgets page. -/
theorem zero_budget_renders_zero_percent (spent : ℚ) :
    budgetPercentage 0 spent = 0 ∧ percentUsedDisplay 0 spent = 0 ∧
    ∀ b : ℚ, ¬ b > 0 → budgetPercentage b spent = 0 ∧ percentUsedDisplay b spent = 0 := by
  refine ⟨by simp [budgetPercentage], by simp [percentUsedDisplay], ?_⟩
  intro b hb
  exact ⟨by simp [budgetPercentage, hb], by simp [percentUsedDisplay, hb]⟩

/-- Claim C5 witness: 500 spent against a 0 budget renders 0 percent on both
pages. -/
theorem zero_budget_renders_zero_percent_witness :
    budgetPercentage 0 500 = 0 ∧ percentUsedDisplay 0 500 = 0 :=
  ⟨(zero_budget_renders_zero_percent 500).1, (zero_budget_renders_zero_percent 500).2.1⟩

theorem totalAmount_foldl_from (es : List ExpenseRec) :
    ∀ init : ℚ, es.foldl (fun sum e => sum + e.amount) init
      = init + (es.map (fun e => e.amount)).sum := by
  induction es with
  | nil => intro init; simp
  | cons e t ih =>
    intro init
    rw [List.foldl_cons, ih, List.map_cons, List.sum_cons]
    ring

theorem totalAmount_eq_sum (es : List ExpenseRec) :
    totalAmount es = (es.map (fun e => e.amount)).sum := by
  rw [totalAmount, totalAmount_foldl_from, zero_add]

/-- Claim C4: the displayed period total is the fold-sum of the filtered
expense list's amounts, it equals the sum of the amounts of the user's
expenses dated in the month, and it does not depend on how those amounts are
distributed across categories. -/
theorem period_total_is_sum (user : Nat) (month : String) (es : List ExpenseRec) :
    totalAmount (filterExpenses user month es)
      = ((filterExpenses user month es).map (fun e => e.amount)).sum ∧
    ∀ es2 : List ExpenseRec,
      es.map (fun e => (e.user, e.month, e.amount))
        = es2.map (fun e => (e.user, e.month, e.amount)) →
      totalAmount (filterExpenses user month es)
        = totalAmount (filterExpenses user month es2) := by
  constructor
  · exact totalAmount_eq_sum _
  · intro es2 hmap
    have key : ∀ l : List ExpenseRec,
        totalAmount (filterExpenses user month l)
          = (((l.map (fun e => (e.user, e.month, e.amount))).filter
              (fun t => t.1 == user && t.2.1 == month)).map (fun t => t.2.2)).sum := by
      intro l
      rw [totalAmount_eq_sum, filterExpenses, List.filter_map, List.map_map]
      rfl
    rw [key es, key es2, hmap]

/-- Claim C4 witness: the theorem applied to a two-expense list and the same
list with its categories rewritten. -/
theorem period_total_is_sum_witness :
    totalAmount (filterExpenses 1 ("2024-01")
        [ExpenseRec.mk 1 ("2024-01") ("Food") 5, ExpenseRec.mk 1 ("2024-01") ("Transport") 7])
      = totalAmount (filterExpenses 1 ("2024-01")
        [ExpenseRec.mk 1 ("2024-01") ("Other") 5, ExpenseRec.mk 1 ("2024-01") ("Bills") 7]) :=
  (period_total_is_sum 1 ("2024-01")
      [ExpenseRec.mk 1 ("2024-01") ("Food") 5, ExpenseRec.mk 1 ("2024-01") ("Transport") 7]).2
    [ExpenseRec.mk 1 ("2024-01") ("Other") 5, ExpenseRec.mk 1 ("2024-01") ("Bills") 7]
    (by decide)

theorem budgetKey_update_row (target : Nat) (amount : ℚ) (r : BudgetRow) :
    budgetKey
        (if r.id = target then BudgetRow.mk r.id r.user_id r.category amount r.month else r)
      = budgetKey r := by
  split <;> rfl

/-- Claim C6: at most one budget row exists per (user, category, month): an
insert whose key already exists is rejected, a successful insert preserves
key uniqueness, and update (amount-only) and delete preserve it as well. -/
theorem budget_key_uniqueness (s : List BudgetRow) (hs : UniqueBudgetKeys s) :
    (∀ b : BudgetRow, (∃ r ∈ s, budgetKey r = budgetKey b) →
      insertBudget s b = Except.error ()) ∧
    (∀ b s2, insertBudget s b = Except.ok s2 → UniqueBudgetKeys s2) ∧
    (∀ target amount, UniqueBudgetKeys (updateBudget s target amount)) ∧
    (∀ target, UniqueBudgetKeys (deleteBudget s target)) := by
  refine ⟨?_, ?_, ?_, ?_⟩
  · intro b hex
    unfold insertBudget
    rw [if_pos]
    rw [List.any_eq_true]
    rcases hex with ⟨r, hr, hk⟩
    exact ⟨r, hr, by simp [hk]⟩
  · intro b s2 hok
    unfold insertBudget at hok
    by_cases h1 : (s.any fun r => decide (budgetKey r = budgetKey b)) = true
    · rw [if_pos h1] at hok
      exact absurd hok (by simp)
    · rw [if_neg h1] at hok
      by_cases h2 : b.amount ≤ 0
      · rw [if_pos h2] at hok
        exact absurd hok (by simp)
      · rw [if_neg h2] at hok
        injection hok with hinj
        subst hinj
        rw [UniqueBudgetKeys, List.pairwise_append]
        refine ⟨hs, List.pairwise_singleton _ _, ?_⟩
        intro a ha b2 hb2
        have hb2e : b2 = b := by simpa using hb2
        subst hb2e
        simp only [List.any_eq_true, decide_eq_true_eq, not_exists, not_and] at h1
        exact h1 a ha
  · intro target amount
    rw [updateBudget, UniqueBudgetKeys, List.pairwise_map]
    apply hs.imp
    intro a b hab
    rw [budgetKey_update_row, budgetKey_update_row]
    exact hab
  · intro target
    exact hs.filter _

/-- Claim C6 witness: a duplicate (user, category, month) insert is rejected
and an amount update keeps the keys unique. -/
theorem budget_key_uniqueness_witness :
    insertBudget [BudgetRow.mk 1 10 ("Food") 100 ("2024-01")]
        (BudgetRow.mk 2 10 ("Food") 50 ("2024-01")) = Except.error () ∧
    UniqueBudgetKeys (updateBudget [BudgetRow.mk 1 10 ("Food") 100 ("2024-01")] 1 75) := by
  constructor
  · exact (budget_key_uniqueness [BudgetRow.mk 1 10 ("Food") 100 ("2024-01")]
      (by simp [UniqueBudgetKeys])).1 (BudgetRow.mk 2 10 ("Food") 50 ("2024-01"))
      ⟨BudgetRow.mk 1 10 ("Food") 100 ("2024-01"), by simp, rfl⟩
  · exact (budget_key_uniqueness [BudgetRow.mk 1 10 ("Food") 100 ("2024-01")]
      (by simp [UniqueBudgetKeys])).2.2.1 1 75

/-- Claim C7: for distinct users A and B, no statement A issues — whatever
filter, payload transformation, or rows its request carries — can read,
modify, or remove a row owned by B, because each policy only admits rows
whose user_id equals the caller: selects never return B's rows, updates leave
every row of B present unchanged, deletes keep B's rows, and inserts cannot
fabricate a row owned by B. -/
theorem rls_user_isolation (A B : Nat) (hAB : A ≠ B) (s : List DataRow)
    (cond : DataRow → Bool) (f : DataRow → DataRow) (rows : List DataRow) :
    (∀ r ∈ rlsSelect A cond s, r.user_id ≠ B) ∧
    (∀ r ∈ s, r.user_id = B → ∀ s2, rlsUpdate A cond f s = Except.ok s2 → r ∈ s2) ∧
    (∀ r ∈ s, r.user_id = B → r ∈ rlsDelete A cond s) ∧
    (∀ s2, rlsInsert A rows s = Except.ok s2 → ∀ r ∈ s2, r.user_id = B → r ∈ s) := by
  refine ⟨?_, ?_, ?_, ?_⟩
  · intro r hr
    unfold rlsSelect at hr
    have hmem := List.mem_filter.mp hr
    have hA : r.user_id = A := by
      have hand := hmem.2
      simp only [Bool.and_eq_true, beq_iff_eq] at hand
      exact hand.1
    rw [hA]
    exact fun e => hAB e
  · intro r hr hB s2 hok
    unfold rlsUpdate at hok
    by_cases hchk :
        (s.any fun r2 => (r2.user_id == A) && cond r2 && !((f r2).user_id == A)) = true
    · rw [if_pos hchk] at hok
      exact absurd hok (by simp)
    · rw [if_neg hchk] at hok
      injection hok with hinj
      subst hinj
      have hfix : (if (r.user_id == A) && cond r then f r else r) = r := by
        rw [if_neg]
        intro hc
        simp only [Bool.and_eq_true, beq_iff_eq] at hc
        exact hAB (hc.1.symm.trans hB)
      exact hfix ▸ List.mem_map_of_mem _ hr
  · intro r hr hB
    unfold rlsDelete
    rw [List.mem_filter]
    refine ⟨hr, ?_⟩
    have hu : (r.user_id == A) = false := by
      rw [hB]
      simp [Ne.symm hAB]
    simp [hu]
  · intro s2 hok r hr hB
    unfold rlsInsert at hok
    by_cases hall : (rows.all fun r2 => r2.user_id == A) = true
    · rw [if_pos hall] at hok
      injection hok with hinj
      subst hinj
      rcases List.mem_append.mp hr with h | h
      · exact h
      · exfalso
        rw [List.all_eq_true] at hall
        have hu : r.user_id = A := by simpa using hall r h
        exact hAB (hu.symm.trans hB)
    · rw [if_neg hall] at hok
      exact absurd hok (by simp)

/-- Claim C7 witness: with caller 1 and victim 2, a delete-everything request
keeps user 2's row, and an update that would rewrite every visible row leaves
user 2's row in the result untouched. -/
theorem rls_user_isolation_witness :
    DataRow.mk 3 2 ("victim") ∈
      rlsDelete 1 (fun _ => true)
        [DataRow.mk 3 2 ("victim"), DataRow.mk 4 1 ("own")] ∧
    DataRow.mk 3 2 ("victim") ∈
      [DataRow.mk 3 2 ("victim"), DataRow.mk 9 1 ("rewritten")] := by
  constructor
  · exact (rls_user_isolation 1 2 (by decide)
      [DataRow.mk 3 2 ("victim"), DataRow.mk 4 1 ("own")]
      (fun _ => true) (fun r => DataRow.mk 9 r.user_id ("rewritten")) []).2.2.1
      (DataRow.mk 3 2 ("victim")) (by simp) rfl
  · exact (rls_user_isolation 1 2 (by decide)
      [DataRow.mk 3 2 ("victim"), DataRow.mk 4 1 ("own")]
      (fun _ => true) (fun r => DataRow.mk 9 r.user_id ("rewritten")) []).2.1
      (DataRow.mk 3 2 ("victim")) (by simp) rfl
      [DataRow.mk 3 2 ("victim"), DataRow.mk 9 1 ("rewritten")] rfl

/-- Claim C8 counterexample: the claim as stated is false on the code: for a
400 response whose JSON error body carries a `message` field "boom", the
client throws "HTTP 400" — it reads the `detail` field, not `message`. -/
theorem request_message_field_counterexample :
    requestResult (HttpResponse.mk 400 (some (Json.obj [(("message"), Json.str ("boom"))])))
      = RequestOutcome.threw ("HTTP 400") ∧
    jsLookup ("message") (Json.obj [(("message"), Json.str ("boom"))])
      = some (Json.str ("boom")) ∧
    ("HTTP 400" : String) ≠ "boom" :=
  ⟨rfl, rfl, by decide⟩

/-- Claim C8 (amended): on a non-2xx status the call throws an error carrying
the `detail` field of the JSON error body when that field is a non-empty
string, "HTTP [status]" when the parsed body has no `detail` field, and the
generic "Request failed" when the body cannot be parsed; a 204 status
resolves to null without reading the body; any other 2xx status resolves to
the parsed JSON body. -/
theorem request_error_handling (resp : HttpResponse) :
    (responseOk resp.status = false → resp.body = none →
      requestResult resp = RequestOutcome.threw ("Request failed")) ∧
    (∀ j d, responseOk resp.status = false → resp.body = some j →
      jsLookup ("detail") j = some (Json.str d) → d ≠ "" →
      requestResult resp = RequestOutcome.threw d) ∧
    (∀ j, responseOk resp.status = false → resp.body = some j →
      jsLookup ("detail") j = none →
      requestResult resp = RequestOutcome.threw ("HTTP " ++ toString resp.status)) ∧
    (responseOk resp.status = true → resp.status = 204 →
      requestResult resp = RequestOutcome.resolvedNull) ∧
    (∀ j, responseOk resp.status = true → resp.status ≠ 204 → resp.body = some j →
      requestResult resp = RequestOutcome.resolved j) := by
  refine ⟨?_, ?_, ?_, ?_, ?_⟩
  · intro hok hbody
    simp [requestResult, hok, hbody, jsLookup, jsTruthy, jsToString]
  · intro j d hok hbody hdetail hne
    simp [requestResult, hok, hbody, hdetail, jsTruthy, jsToString, hne]
  · intro j hok hbody hdetail
    simp [requestResult, hok, hbody, hdetail]
  · intro hok h204
    simp [requestResult, hok, h204]
    decide
  · intro j hok h204 hbody
    simp [requestResult, hok, h204, hbody]

/-- Claim C8 witness: the amended behaviour at four concrete responses. -/
theorem request_error_handling_witness :
    requestResult (HttpResponse.mk 500 none) = RequestOutcome.threw ("Request failed") ∧
    requestResult (HttpResponse.mk 404 (some (Json.obj [(("detail"), Json.str ("Not found"))])))
      = RequestOutcome.threw ("Not found") ∧
    requestResult (HttpResponse.mk 204 (some Json.null)) = RequestOutcome.resolvedNull ∧
    requestResult (HttpResponse.mk 200 (some (Json.num 7)))
      = RequestOutcome.resolved (Json.num 7) :=
  ⟨(request_error_handling (HttpResponse.mk 500 none)).1 rfl rfl,
   (request_error_handling
       (HttpResponse.mk 404 (some (Json.obj [(("detail"), Json.str ("Not found"))])))).2.1
     (Json.obj [(("detail"), Json.str ("Not found"))]) ("Not found") rfl rfl rfl (by decide),
   (request_error_handling (HttpResponse.mk 204 (some Json.null))).2.2.2.1 rfl rfl,
   (request_error_handling (HttpResponse.mk 200 (some (Json.num 7)))).2.2.2.2
     (Json.num 7) rfl (by decide) rfl⟩
